import Mathlib

/-!
Shallow embedding of `src/discordbot/main.py` (hangouts-discord-bot).

The file models the startup/shutdown logic of `main`, the service
initialisation in `init_services`, the database setup in `setup_database`,
and the token/argument handling, as executable Lean functions, and proves
the specification claims about them.

Conventions:
- Python's `os.environ` is a record of `Option String` fields;
  `os.environ.get(k)` is the field itself, `os.environ[k]` raises
  `KeyError` when the field is `none`.
- Python truthiness of a possibly-missing string (`if not s`,
  `x if x else y`) is `pyTruthy`: `none` and the empty string are falsy.
- Effects are recorded as traces: `StartupEvent` for the startup phase of
  `main` (task creation, integration construction, listener registration,
  environment reads) and `ShutdownOp` for the await/cancel phase.
-/

deriving instance DecidableEq for Except

namespace DiscordBot

/-- `DATABASE_URL = "sqlite:///data/hangouts.db"` from main.py. -/
def DATABASE_URL : String := "sqlite:///data/hangouts.db"

/-- Whether `pat` is an initial segment of `s` (character lists). -/
def isPre : List Char → List Char → Bool
  | [], _ => true
  | _ :: _, [] => false
  | p :: ps, c :: cs => p = c && isPre ps cs

/-- Fuel-indexed worker for `pyReplace`; the fuel starts at the length of
the subject string, which bounds the number of steps. -/
def pyReplaceAux : Nat → List Char → List Char → List Char → List Char
  | 0, s, _, _ => s
  | _ + 1, [], _, _ => []
  | n + 1, c :: cs, pat, rep =>
    if isPre pat (c :: cs) then rep ++ pyReplaceAux n (cs.drop (pat.length - 1)) pat rep
    else c :: pyReplaceAux n cs pat rep

/-- Python `str.replace(pat, rep)` for a non-empty pattern: replaces every
(leftmost, non-overlapping) occurrence of `pat` in `s` by `rep`. -/
def pyReplace (s pat rep : String) : String :=
  ⟨pyReplaceAux s.data.length s.data pat.data rep.data⟩

/-- Splits a character list on `'/'`, keeping empty segments. -/
def splitSlashAux : List Char → List Char → List (List Char)
  | [], acc => [acc.reverse]
  | c :: cs, acc =>
    if c = '/' then acc.reverse :: splitSlashAux cs [] else splitSlashAux cs (c :: acc)

/-- Joins segments with `'/'`. -/
def joinSlash : List (List Char) → List Char
  | [] => []
  | [x] => x
  | x :: xs => x ++ '/' :: joinSlash xs

/-- `os.path.dirname` for slash-separated relative paths as used in
`setup_database`: everything before the last `'/'`, or `""` when there is
no `'/'`. -/
def pyDirname (p : String) : String := ⟨joinSlash ((splitSlashAux p.data []).dropLast)⟩

/-- Exceptions that the modelled code can raise. -/
inductive ExcKind where
  | keyError (key : String)
  | pyException (msg : String)
deriving DecidableEq, Repr

/-- Python truthiness of an optional string: `None` and `""` are falsy. -/
def pyTruthy : Option String → Bool
  | none => false
  | some s => !(s.data.isEmpty)

/-- The environment variables main.py consults. -/
structure Env where
  openai_api_key : Option String
  discord_token : Option String

/-- The parsed command-line arguments (`parse_arguments`): `-v`,
`--discord`, `--discord-token`.  argparse yields `None` for an absent
`--discord-token`, modelled as `none`. -/
structure Args where
  v : Bool
  discord : Bool
  discord_token : Option String

/-- The alarm service handle; only its `event_queue` identity matters to
the claims.  `AlarmService(...)` in `init_services` constructs one service
owning one queue; the queue is identified by a numeral. -/
structure AlarmService where
  event_queue : Nat
deriving DecidableEq, Repr

/-- The bundle returned by `init_services` (the handles the claims need). -/
structure Services where
  alarm_service : AlarmService
deriving DecidableEq, Repr

/-- `init_services` from main.py: raises
`Exception("OPENAI_API_KEY is not set")` when
`os.environ.get("OPENAI_API_KEY")` is falsy, otherwise builds the services
(one alarm service owning one event queue). -/
def init_services (env : Env) : Except ExcKind Services :=
  if !(pyTruthy env.openai_api_key) then
    .error (.pyException "OPENAI_API_KEY is not set")
  else
    .ok { alarm_service := { event_queue := 0 } }

/-- The long-running coroutines main.py wraps in `asyncio.create_task`.
`alarmServiceLoop q` is `alarm_service.start()` where the service owns
queue `q`; `alarmEventProcessor q` is
`alarm_event_processor(alarm_service.event_queue, ...)` applied to queue
`q` (modelled from the spec: the alarm event processor, whose module is
not under src/, consumes events from the queue it is handed);
`discordStartBot tok` is `discord_integration.start_bot(token)`;
`cliStart` is `cli_integration.start()`. -/
inductive TaskKind where
  | alarmServiceLoop (queue : Nat)
  | alarmEventProcessor (queue : Nat)
  | discordStartBot (token : String)
  | cliStart
deriving DecidableEq, Repr

/-- Observable events of the startup phase of `main`, in program order. -/
inductive StartupEvent where
  | setupDatabaseEv
  | readEnvVar (key : String)
  | createTask (k : TaskKind)
  | constructIntegration (discord : Bool)
  | addMessageListener (discord : Bool)
deriving DecidableEq, Repr

/-- The startup phase of `main` (main.py lines 89-146), from
`parse_arguments` up to (but not including) `await asyncio.gather(*tasks)`:
sets up the database, calls `init_services` (which reads
`OPENAI_API_KEY`), creates the alarm-service task and the
alarm-event-processor task (handing the processor
`alarm_service.event_queue`), then constructs exactly one integration
(Discord when `args.discord`, CLI otherwise), registers one message
listener on `tool_provider.messaging_tools`, resolves the Discord token
(`args.discord_token if args.discord_token else os.environ["DISCORD_TOKEN"]`,
a `KeyError` when both are missing) and creates the integration task.
Returns the event trace together with either the raised exception or the
final `tasks` list. -/
def mainStartup (args : Args) (env : Env) :
    List StartupEvent × Except ExcKind (List TaskKind) :=
  let ev0 : List StartupEvent := [.setupDatabaseEv, .readEnvVar "OPENAI_API_KEY"]
  match init_services env with
  | .error e => (ev0, .error e)
  | .ok services =>
    let q := services.alarm_service.event_queue
    let baseTasks : List TaskKind := [.alarmServiceLoop q, .alarmEventProcessor q]
    let ev1 := ev0 ++
      [.createTask (.alarmServiceLoop q), .createTask (.alarmEventProcessor q)]
    if args.discord then
      let ev2 := ev1 ++ [.constructIntegration true, .addMessageListener true]
      if pyTruthy args.discord_token then
        let tok := args.discord_token.getD ""
        (ev2 ++ [.createTask (.discordStartBot tok)],
         .ok (baseTasks ++ [.discordStartBot tok]))
      else
        match env.discord_token with
        | some tok =>
          (ev2 ++ [.readEnvVar "DISCORD_TOKEN", .createTask (.discordStartBot tok)],
           .ok (baseTasks ++ [.discordStartBot tok]))
        | none =>
          (ev2 ++ [.readEnvVar "DISCORD_TOKEN"], .error (.keyError "DISCORD_TOKEN"))
    else
      (ev1 ++ [.constructIntegration false, .addMessageListener false,
               .createTask .cliStart],
       .ok (baseTasks ++ [.cliStart]))

/-- Whether a task kind is an integration serving loop. -/
def TaskKind.isIntegration : TaskKind → Bool
  | .discordStartBot _ => true
  | .cliStart => true
  | _ => false

/-- Whether a startup event creates an integration task. -/
def StartupEvent.isCreateIntegrationTask : StartupEvent → Bool
  | .createTask k => k.isIntegration
  | _ => false

/-- Whether a startup event creates any task. -/
def StartupEvent.isCreateTask : StartupEvent → Bool
  | .createTask _ => true
  | _ => false

/-- Whether a startup event constructs an integration object. -/
def StartupEvent.isConstructIntegration : StartupEvent → Bool
  | .constructIntegration _ => true
  | _ => false

/-- Whether a startup event registers a message listener. -/
def StartupEvent.isAddListener : StartupEvent → Bool
  | .addMessageListener _ => true
  | _ => false

/-- How `await asyncio.gather(*tasks)` in the `try` block of `main` ends:
all tasks completed, the gather was cancelled (`asyncio.CancelledError`),
a `KeyboardInterrupt` arrived, or some task failed with an unexpected
error `e`. -/
inductive GatherOutcome where
  | completed
  | cancelled
  | interrupted
  | failed (e : String)
deriving DecidableEq, Repr

/-- Log severities used by `main`. -/
inductive LogLevel where
  | info
  | warning
  | err
deriving DecidableEq, Repr

/-- The awaiting/cancellation operations of the run phase of `main`.
`awaitAll ids re` is `asyncio.gather` over the tasks with identifiers
`ids`, with `return_exceptions=re`; gather returns only once every
awaited task has finished. -/
inductive ShutdownOp where
  | cancel (taskId : Nat)
  | awaitAll (taskIds : List Nat) (returnExceptions : Bool)
deriving DecidableEq, Repr

/-- Observable result of the run phase of `main`. -/
structure RunResult where
  logs : List (LogLevel × String)
  ops : List ShutdownOp
  propagated : Option String
deriving DecidableEq, Repr

/-- The run phase of `main` (main.py lines 147-163): the
`try/except/finally` around `await asyncio.gather(*tasks)`.  `taskIds`
identifies the tasks in the `tasks` list (distinct asyncio task objects),
`outcome` is how the first gather ends, and `finallyAwaitCancelled` is
whether the gather inside the `finally` block is itself interrupted by a
`CancelledError` (which the inner `except asyncio.CancelledError: pass`
swallows, so it has no observable effect).  A `CancelledError` from the
first gather is caught and logged at info; a `KeyboardInterrupt` is caught
and logged at info; any other exception is not caught, so after the
`finally` block it propagates out of `main`.  The `finally` block calls
`task.cancel()` once per entry of `tasks`, awaits them all with
`return_exceptions=True`, and logs shutdown completion. -/
def mainRun (taskIds : List Nat) (outcome : GatherOutcome)
    (finallyAwaitCancelled : Bool) : RunResult :=
  let caught : List (LogLevel × String) × Option String :=
    match outcome with
    | .completed => ([], none)
    | .cancelled => ([(.info, "Shutting down services...")], none)
    | .interrupted => ([(.info, "Received interrupt signal, shutting down...")], none)
    | .failed e => ([], some e)
  let _ := finallyAwaitCancelled
  { logs := caught.1 ++ [(.info, "Services shut down successfully")],
    ops := [ShutdownOp.awaitAll taskIds false]
      ++ taskIds.map ShutdownOp.cancel
      ++ [ShutdownOp.awaitAll taskIds true],
    propagated := caught.2 }

/-- Persistent state `setup_database` acts on: which directories exist on
disk and which tables exist in the database file. -/
structure FsState where
  dirs : List String
  tables : List String
deriving DecidableEq, Repr

/-- Observable result of `setup_database`. -/
structure SetupDbResult where
  fs : FsState
  engineUrl : String
  createdDirs : List String
  logs : List String
deriving DecidableEq, Repr

/-- `setup_database` from main.py: computes the data directory from the
fixed `DATABASE_URL` (no argument or environment input), calls
`os.makedirs` only when `os.path.exists` is false, then
`create_engine(DATABASE_URL)` and `Base.metadata.create_all(engine)`
(which creates every ORM table that does not already exist, and leaves
existing tables alone), and returns the engine.  `ormTables` is the table
set of `Base.metadata` (the ORM schema itself lives outside main.py). -/
def setup_database (ormTables : List String) (fs : FsState) : SetupDbResult :=
  let data_dir := pyDirname (pyReplace DATABASE_URL "sqlite:///" "")
  let fs1 := if data_dir ∈ fs.dirs then fs else { fs with dirs := fs.dirs ++ [data_dir] }
  let created : List String := if data_dir ∈ fs.dirs then [] else [data_dir]
  let logs1 : List String :=
    if data_dir ∈ fs.dirs then [] else ["Created data directory at " ++ data_dir]
  let fs2 :=
    { fs1 with tables := fs1.tables ++ ormTables.filter (fun t => decide (t ∉ fs1.tables)) }
  { fs := fs2,
    engineUrl := DATABASE_URL,
    createdDirs := created,
    logs := logs1 ++ ["Database initialized successfully"] }

/-! ## Helper lemmas -/

/-- A successful `init_services` implies the credential was present and
pins down the returned service bundle: one alarm service owning queue 0. -/
theorem init_services_ok_elim (env : Env) (s : Services)
    (h : init_services env = .ok s) :
    pyTruthy env.openai_api_key = true
      ∧ s = { alarm_service := { event_queue := 0 } } := by
  cases hk : pyTruthy env.openai_api_key <;> simp [init_services, hk] at h
  exact ⟨rfl, h.symm⟩

/-! ## Claim theorems -/

/-- C3: when the `OPENAI_API_KEY` environment variable is absent (or
empty, which `if not os.environ.get(...)` treats the same way),
`init_services` raises `Exception("OPENAI_API_KEY is not set")`, and in
`main` this happens before any `asyncio.create_task` call: the failing
startup trace contains no task-creation event. -/
theorem c3_missing_model_credential_aborts_before_any_task
    (args : Args) (env : Env) (h : pyTruthy env.openai_api_key = false) :
    (mainStartup args env).2 = .error (.pyException "OPENAI_API_KEY is not set")
    ∧ ∀ ev ∈ (mainStartup args env).1, ev.isCreateTask = false := by
  simp [mainStartup, init_services, h, StartupEvent.isCreateTask]

/-- Witness for C3 at a concrete input: no `OPENAI_API_KEY` in the
environment. -/
theorem c3_missing_model_credential_witness :
    (mainStartup { v := false, discord := false, discord_token := none }
        { openai_api_key := none, discord_token := none }).2
      = .error (.pyException "OPENAI_API_KEY is not set")
    ∧ ∀ ev ∈ (mainStartup { v := false, discord := false, discord_token := none }
        { openai_api_key := none, discord_token := none }).1,
        ev.isCreateTask = false :=
  c3_missing_model_credential_aborts_before_any_task _ _ (by decide)

/-- C1 counterexample: run with `--discord`, no `--discord-token`, no
`DISCORD_TOKEN` in the environment, `OPENAI_API_KEY` present.  Startup
does fail (an uncaught `KeyError` on `DISCORD_TOKEN`), but the
alarm-service task and the alarm-event-processor task have already been
created before the token check, contradicting the claim that no
alarm-service or processor task is created before it. -/
theorem c1_counterexample_tasks_created_before_token_check :
    (mainStartup { v := false, discord := true, discord_token := none }
        { openai_api_key := some "k", discord_token := none }).2
      = .error (.keyError "DISCORD_TOKEN")
    ∧ StartupEvent.createTask (.alarmServiceLoop 0)
        ∈ (mainStartup { v := false, discord := true, discord_token := none }
            { openai_api_key := some "k", discord_token := none }).1
    ∧ StartupEvent.createTask (.alarmEventProcessor 0)
        ∈ (mainStartup { v := false, discord := true, discord_token := none }
            { openai_api_key := some "k", discord_token := none }).1 := by
  decide

/-- C1 (amended): if the Discord integration is enabled and no platform
token is available (the `--discord-token` argument is absent or empty and
`DISCORD_TOKEN` is not in the environment), startup fails with an
uncaught `KeyError` before the integration task is created — but the
alarm-service task and the alarm-event-processor task have already been
created before the token check. -/
theorem c1_amended_token_check_after_core_tasks
    (args : Args) (env : Env) (hd : args.discord = true)
    (ha : pyTruthy args.discord_token = false) (he : env.discord_token = none)
    (hk : pyTruthy env.openai_api_key = true) :
    (mainStartup args env).2 = .error (.keyError "DISCORD_TOKEN")
    ∧ (∀ ev ∈ (mainStartup args env).1, ev.isCreateIntegrationTask = false)
    ∧ StartupEvent.createTask (.alarmServiceLoop 0) ∈ (mainStartup args env).1
    ∧ StartupEvent.createTask (.alarmEventProcessor 0) ∈ (mainStartup args env).1 := by
  simp [mainStartup, init_services, hd, ha, he, hk,
    StartupEvent.isCreateIntegrationTask, TaskKind.isIntegration]

/-- Witness for the amended C1 at a concrete input: `--discord` with an
empty `--discord-token` and no `DISCORD_TOKEN` in the environment. -/
theorem c1_amended_witness :
    (mainStartup { v := false, discord := true, discord_token := some "" }
        { openai_api_key := some "key", discord_token := none }).2
      = .error (.keyError "DISCORD_TOKEN")
    ∧ (∀ ev ∈ (mainStartup { v := false, discord := true, discord_token := some "" }
        { openai_api_key := some "key", discord_token := none }).1,
        ev.isCreateIntegrationTask = false)
    ∧ StartupEvent.createTask (.alarmServiceLoop 0)
        ∈ (mainStartup { v := false, discord := true, discord_token := some "" }
            { openai_api_key := some "key", discord_token := none }).1
    ∧ StartupEvent.createTask (.alarmEventProcessor 0)
        ∈ (mainStartup { v := false, discord := true, discord_token := some "" }
            { openai_api_key := some "key", discord_token := none }).1 :=
  c1_amended_token_check_after_core_tasks _ _ (by decide) (by decide) (by decide)
    (by decide)

/-- C2: on shutdown of `main` (however the first gather ends), the
`finally` block issues `task.cancel()` once per entry of the task list —
for distinct tasks, each is cancelled exactly once — and then performs a
single `asyncio.gather(*tasks, return_exceptions=True)` over the whole
task list as the last awaiting operation, so `main` does not return while
any task is still running and no task is cancelled twice. -/
theorem c2_shutdown_cancels_once_then_awaits_all
    (ids : List Nat) (outcome : GatherOutcome) (fac : Bool) (h : ids.Nodup) :
    (mainRun ids outcome fac).ops
      = [ShutdownOp.awaitAll ids false] ++ ids.map ShutdownOp.cancel
          ++ [ShutdownOp.awaitAll ids true]
    ∧ (∀ i ∈ ids, (mainRun ids outcome fac).ops.count (ShutdownOp.cancel i) = 1)
    ∧ (mainRun ids outcome fac).ops.getLast? = some (ShutdownOp.awaitAll ids true) := by
  have hops : (mainRun ids outcome fac).ops
      = [ShutdownOp.awaitAll ids false] ++ ids.map ShutdownOp.cancel
          ++ [ShutdownOp.awaitAll ids true] := rfl
  have hinj : Function.Injective ShutdownOp.cancel := fun a b hab => by
    injection hab
  refine ⟨hops, ?_, ?_⟩
  · intro i hi
    rw [hops, List.count_append, List.count_append,
      List.count_map_of_injective ids ShutdownOp.cancel hinj i,
      List.count_eq_one_of_mem h hi]
    simp
  · rw [hops]
    exact List.getLast?_concat _

/-- Witness for C2 at a concrete input: three distinct task handles. -/
theorem c2_shutdown_witness :
    (mainRun [0, 1, 2] .completed false).ops
      = [ShutdownOp.awaitAll [0, 1, 2] false] ++ [0, 1, 2].map ShutdownOp.cancel
          ++ [ShutdownOp.awaitAll [0, 1, 2] true]
    ∧ (∀ i ∈ [0, 1, 2],
        (mainRun [0, 1, 2] .completed false).ops.count (ShutdownOp.cancel i) = 1)
    ∧ (mainRun [0, 1, 2] .completed false).ops.getLast?
        = some (ShutdownOp.awaitAll [0, 1, 2] true) :=
  c2_shutdown_cancels_once_then_awaits_all [0, 1, 2] .completed false (by decide)

/-- C4: when the awaited task set ends by cancellation, `main` catches the
`asyncio.CancelledError` and logs it at info level; in the `finally`
block the per-task results are suppressed by gathering with
`return_exceptions=True` (the final awaiting operation), and no exception
propagates out of `main`.  This also holds when the `finally` gather is
itself interrupted by a `CancelledError`, which the inner
`except asyncio.CancelledError: pass` swallows. -/
theorem c4_cancellation_logged_info_and_suppressed
    (ids : List Nat) (fac : Bool) :
    (LogLevel.info, "Shutting down services...") ∈ (mainRun ids .cancelled fac).logs
    ∧ (mainRun ids .cancelled fac).propagated = none
    ∧ (mainRun ids .cancelled fac).ops.getLast? = some (ShutdownOp.awaitAll ids true)
    ∧ mainRun ids .cancelled true = mainRun ids .cancelled false := by
  refine ⟨?_, rfl, ?_, rfl⟩
  · simp [mainRun]
  · have hops : (mainRun ids .cancelled fac).ops
        = [ShutdownOp.awaitAll ids false] ++ ids.map ShutdownOp.cancel
            ++ [ShutdownOp.awaitAll ids true] := rfl
    rw [hops]
    exact List.getLast?_concat _

/-- C5 counterexample: a task failing with an unexpected error
(`"ValueError: boom"`) while `main` awaits the task set.  The only log
entry `main` emits is the generic shutdown-complete message — the error
itself is never logged by `main`; instead it propagates out of `main`. -/
theorem c5_counterexample_unexpected_error_not_logged :
    (mainRun [0, 1, 2] (.failed "ValueError: boom") false).logs
      = [(.info, "Services shut down successfully")]
    ∧ (mainRun [0, 1, 2] (.failed "ValueError: boom") false).propagated
      = some "ValueError: boom" := by
  decide

/-- C5 (amended): an unexpected (non-cancellation, non-interrupt) task
error is not caught and not logged by `main`: the `try` block has no
handler for it, so after the `finally` block runs (cancelling the tasks,
awaiting them with `return_exceptions=True`, and logging only the generic
shutdown-complete message) the error propagates out of `main`. -/
theorem c5_amended_unexpected_error_propagates_unlogged
    (ids : List Nat) (e : String) (fac : Bool) :
    (mainRun ids (.failed e) fac).logs = [(.info, "Services shut down successfully")]
    ∧ (mainRun ids (.failed e) fac).propagated = some e
    ∧ (mainRun ids (.failed e) fac).ops.getLast? = some (ShutdownOp.awaitAll ids true) := by
  refine ⟨rfl, rfl, ?_⟩
  have hops : (mainRun ids (.failed e) fac).ops
      = [ShutdownOp.awaitAll ids false] ++ ids.map ShutdownOp.cancel
          ++ [ShutdownOp.awaitAll ids true] := rfl
  rw [hops]
  exact List.getLast?_concat _

/-- C6: the queue argument handed to the alarm-event-processor task in
`main` is exactly `alarm_service.event_queue`, the queue owned by the
alarm service instance returned by `init_services`: the alarm-service
loop task (the producer) and the processor task (the consumer) reference
one and the same queue, and every processor task in the startup trace
consumes that queue. -/
theorem c6_processor_consumes_alarm_service_queue
    (args : Args) (env : Env) (s : Services)
    (h : init_services env = .ok s) :
    StartupEvent.createTask (.alarmServiceLoop s.alarm_service.event_queue)
      ∈ (mainStartup args env).1
    ∧ StartupEvent.createTask (.alarmEventProcessor s.alarm_service.event_queue)
      ∈ (mainStartup args env).1
    ∧ ∀ q, StartupEvent.createTask (.alarmEventProcessor q) ∈ (mainStartup args env).1
        → q = s.alarm_service.event_queue := by
  obtain ⟨hk, hs⟩ := init_services_ok_elim env s h
  subst hs
  cases hd : args.discord <;> cases ht : pyTruthy args.discord_token <;>
    cases he : env.discord_token <;>
    simp [mainStartup, init_services, hk, hd, ht, he]

/-- Witness for C6 at a concrete input. -/
theorem c6_queue_witness :
    StartupEvent.createTask (.alarmServiceLoop 0)
      ∈ (mainStartup { v := false, discord := false, discord_token := none }
          { openai_api_key := some "kk", discord_token := none }).1
    ∧ StartupEvent.createTask (.alarmEventProcessor 0)
      ∈ (mainStartup { v := false, discord := false, discord_token := none }
          { openai_api_key := some "kk", discord_token := none }).1
    ∧ ∀ q, StartupEvent.createTask (.alarmEventProcessor q)
        ∈ (mainStartup { v := false, discord := false, discord_token := none }
            { openai_api_key := some "kk", discord_token := none }).1
        → q = 0 :=
  c6_processor_consumes_alarm_service_queue _ _
    { alarm_service := { event_queue := 0 } } (by decide)

/-- C7: with the model credential present and, when Discord is enabled, a
platform token available, `main` creates exactly three tasks via
`asyncio.create_task` — the alarm-service loop, the alarm-event-processor
loop, and exactly one integration serving loop — and then its first
awaiting operation is a single gather over the whole task set, which
returns only once all of them complete unless a cancellation or
interrupt arrives first. -/
theorem c7_three_tasks_then_gather_all
    (args : Args) (env : Env) (outcome : GatherOutcome) (fac : Bool)
    (hk : pyTruthy env.openai_api_key = true)
    (htok : args.discord = true →
      pyTruthy args.discord_token = true ∨ env.discord_token ≠ none) :
    ∃ integ : TaskKind,
      integ.isIntegration = true
      ∧ (mainStartup args env).2
          = .ok [.alarmServiceLoop 0, .alarmEventProcessor 0, integ]
      ∧ (∀ t ∈ [TaskKind.alarmServiceLoop 0, .alarmEventProcessor 0, integ],
          StartupEvent.createTask t ∈ (mainStartup args env).1)
      ∧ (mainRun (List.range 3) outcome fac).ops.head?
          = some (ShutdownOp.awaitAll (List.range 3) false) := by
  cases hd : args.discord
  · exact ⟨.cliStart, by
      simp [mainStartup, init_services, hk, hd, TaskKind.isIntegration, mainRun]⟩
  · cases ht : pyTruthy args.discord_token
    · rcases he : env.discord_token with _ | tok
      · rcases htok hd with h1 | h2
        · rw [ht] at h1; exact absurd h1 (by simp)
        · exact absurd he h2
      · exact ⟨.discordStartBot tok, by
          simp [mainStartup, init_services, hk, hd, ht, he,
            TaskKind.isIntegration, mainRun]⟩
    · exact ⟨.discordStartBot (args.discord_token.getD ""), by
        simp [mainStartup, init_services, hk, hd, ht,
          TaskKind.isIntegration, mainRun]⟩

/-- Witness for C7 at a concrete input (CLI integration). -/
theorem c7_three_tasks_witness :
    ∃ integ : TaskKind,
      integ.isIntegration = true
      ∧ (mainStartup { v := false, discord := false, discord_token := none }
          { openai_api_key := some "k2", discord_token := none }).2
        = .ok [.alarmServiceLoop 0, .alarmEventProcessor 0, integ]
      ∧ (∀ t ∈ [TaskKind.alarmServiceLoop 0, .alarmEventProcessor 0, integ],
          StartupEvent.createTask t
            ∈ (mainStartup { v := false, discord := false, discord_token := none }
                { openai_api_key := some "k2", discord_token := none }).1)
      ∧ (mainRun (List.range 3) .completed false).ops.head?
          = some (ShutdownOp.awaitAll (List.range 3) false) :=
  c7_three_tasks_then_gather_all _ _ .completed false (by decide) (by decide)

/-- C8 counterexample: `--discord-token ""` (the argument is provided but
empty) with `DISCORD_TOKEN=ENVTOK` in the environment.  The argument is
not absent, yet the environment variable is consulted — and its value,
not the argument's, is the token the Discord task is started with —
refuting that the environment is consulted only when the argument is
absent. -/
theorem c8_counterexample_env_consulted_for_empty_argument :
    ({ v := false, discord := true, discord_token := some "" } : Args).discord_token
        ≠ none
    ∧ StartupEvent.readEnvVar "DISCORD_TOKEN"
        ∈ (mainStartup { v := false, discord := true, discord_token := some "" }
            { openai_api_key := some "k", discord_token := some "ENVTOK" }).1
    ∧ StartupEvent.createTask (.discordStartBot "ENVTOK")
        ∈ (mainStartup { v := false, discord := true, discord_token := some "" }
            { openai_api_key := some "k", discord_token := some "ENVTOK" }).1 := by
  decide

/-- C8 (amended): with Discord enabled and the credential present, the
token passed to `start_bot` is the `--discord-token` value whenever that
value is truthy (provided and non-empty), and `DISCORD_TOKEN` is then
never read; the environment variable is consulted exactly when the
argument is absent *or empty* (Python falsy), and the token started with
is then the environment value. -/
theorem c8_amended_token_source
    (args : Args) (env : Env) (hd : args.discord = true)
    (hk : pyTruthy env.openai_api_key = true) :
    (pyTruthy args.discord_token = true →
      StartupEvent.createTask (.discordStartBot (args.discord_token.getD ""))
        ∈ (mainStartup args env).1
      ∧ StartupEvent.readEnvVar "DISCORD_TOKEN" ∉ (mainStartup args env).1)
    ∧ (pyTruthy args.discord_token = false →
      StartupEvent.readEnvVar "DISCORD_TOKEN" ∈ (mainStartup args env).1
      ∧ ∀ tok, env.discord_token = some tok →
          StartupEvent.createTask (.discordStartBot tok) ∈ (mainStartup args env).1) := by
  cases ht : pyTruthy args.discord_token <;>
    rcases he : env.discord_token with _ | tok <;>
    simp [mainStartup, init_services, hk, hd, ht, he]

/-- Witness for the amended C8 at a concrete input: a provided, non-empty
`--discord-token`. -/
theorem c8_amended_witness :
    (pyTruthy ({ v := false, discord := true, discord_token := some "ARGTOK" } : Args).discord_token = true →
      StartupEvent.createTask (.discordStartBot
          (({ v := false, discord := true, discord_token := some "ARGTOK" } : Args).discord_token.getD ""))
        ∈ (mainStartup { v := false, discord := true, discord_token := some "ARGTOK" }
            { openai_api_key := some "k3", discord_token := some "E2" }).1
      ∧ StartupEvent.readEnvVar "DISCORD_TOKEN"
          ∉ (mainStartup { v := false, discord := true, discord_token := some "ARGTOK" }
              { openai_api_key := some "k3", discord_token := some "E2" }).1)
    ∧ (pyTruthy ({ v := false, discord := true, discord_token := some "ARGTOK" } : Args).discord_token = false →
      StartupEvent.readEnvVar "DISCORD_TOKEN"
          ∈ (mainStartup { v := false, discord := true, discord_token := some "ARGTOK" }
              { openai_api_key := some "k3", discord_token := some "E2" }).1
      ∧ ∀ tok, ({ openai_api_key := some "k3", discord_token := some "E2" } : Env).discord_token = some tok →
          StartupEvent.createTask (.discordStartBot tok)
            ∈ (mainStartup { v := false, discord := true, discord_token := some "ARGTOK" }
                { openai_api_key := some "k3", discord_token := some "E2" }).1) :=
  c8_amended_token_source _ _ (by decide) (by decide)

/-- C9 counterexample: `--discord` with no token anywhere
(`OPENAI_API_KEY` present).  The Discord integration object is
constructed and its message listener registered, but no integration task
is ever created — the run aborts on the token lookup — so it is not the
case that for every parsed argument configuration exactly one integration
is constructed *and started*. -/
theorem c9_counterexample_integration_constructed_but_not_started :
    StartupEvent.constructIntegration true
      ∈ (mainStartup { v := true, discord := true, discord_token := none }
          { openai_api_key := some "k4", discord_token := none }).1
    ∧ StartupEvent.addMessageListener true
      ∈ (mainStartup { v := true, discord := true, discord_token := none }
          { openai_api_key := some "k4", discord_token := none }).1
    ∧ ((mainStartup { v := true, discord := true, discord_token := none }
          { openai_api_key := some "k4", discord_token := none }).1.filter
          StartupEvent.isCreateIntegrationTask).length = 0 := by
  decide

/-- C9 (amended): for every parsed argument configuration, provided the
model credential is present and, when Discord is enabled, a token is
available, exactly one integration is constructed — Discord iff
`--discord` is set — exactly one message listener is registered on
`tool_provider.messaging_tools`, exactly one integration task is
created, and the listener registration occurs strictly before the
integration task is created. -/
theorem c9_amended_one_integration_listener_registered_first
    (args : Args) (env : Env)
    (hk : pyTruthy env.openai_api_key = true)
    (htok : args.discord = true →
      pyTruthy args.discord_token = true ∨ env.discord_token ≠ none) :
    ((mainStartup args env).1.filter StartupEvent.isConstructIntegration).length = 1
    ∧ StartupEvent.constructIntegration args.discord ∈ (mainStartup args env).1
    ∧ ((mainStartup args env).1.filter StartupEvent.isAddListener).length = 1
    ∧ StartupEvent.addMessageListener args.discord ∈ (mainStartup args env).1
    ∧ ((mainStartup args env).1.filter StartupEvent.isCreateIntegrationTask).length = 1
    ∧ (mainStartup args env).1.findIdx StartupEvent.isAddListener
        < (mainStartup args env).1.findIdx StartupEvent.isCreateIntegrationTask := by
  cases hd : args.discord
  · simp [mainStartup, init_services, hk, hd, StartupEvent.isConstructIntegration,
      StartupEvent.isAddListener, StartupEvent.isCreateIntegrationTask,
      TaskKind.isIntegration, List.findIdx_cons]
  · cases ht : pyTruthy args.discord_token
    · rcases he : env.discord_token with _ | tok
      · rcases htok hd with h1 | h2
        · rw [ht] at h1; exact absurd h1 (by simp)
        · exact absurd he h2
      · simp [mainStartup, init_services, hk, hd, ht, he,
          StartupEvent.isConstructIntegration, StartupEvent.isAddListener,
          StartupEvent.isCreateIntegrationTask, TaskKind.isIntegration,
          List.findIdx_cons]
    · simp [mainStartup, init_services, hk, hd, ht,
        StartupEvent.isConstructIntegration, StartupEvent.isAddListener,
        StartupEvent.isCreateIntegrationTask, TaskKind.isIntegration,
        List.findIdx_cons]

/-- Witness for the amended C9 at a concrete input: Discord enabled with
an argument token. -/
theorem c9_amended_witness :
    ((mainStartup { v := true, discord := true, discord_token := some "T9" }
        { openai_api_key := some "k9", discord_token := none }).1.filter
        StartupEvent.isConstructIntegration).length = 1
    ∧ StartupEvent.constructIntegration
        ({ v := true, discord := true, discord_token := some "T9" } : Args).discord
      ∈ (mainStartup { v := true, discord := true, discord_token := some "T9" }
          { openai_api_key := some "k9", discord_token := none }).1
    ∧ ((mainStartup { v := true, discord := true, discord_token := some "T9" }
        { openai_api_key := some "k9", discord_token := none }).1.filter
        StartupEvent.isAddListener).length = 1
    ∧ StartupEvent.addMessageListener
        ({ v := true, discord := true, discord_token := some "T9" } : Args).discord
      ∈ (mainStartup { v := true, discord := true, discord_token := some "T9" }
          { openai_api_key := some "k9", discord_token := none }).1
    ∧ ((mainStartup { v := true, discord := true, discord_token := some "T9" }
        { openai_api_key := some "k9", discord_token := none }).1.filter
        StartupEvent.isCreateIntegrationTask).length = 1
    ∧ (mainStartup { v := true, discord := true, discord_token := some "T9" }
        { openai_api_key := some "k9", discord_token := none }).1.findIdx
        StartupEvent.isAddListener
      < (mainStartup { v := true, discord := true, discord_token := some "T9" }
          { openai_api_key := some "k9", discord_token := none }).1.findIdx
          StartupEvent.isCreateIntegrationTask :=
  c9_amended_one_integration_listener_registered_first _ _ (by decide) (by decide)

/-- The data directory `setup_database` computes from the fixed URL. -/
theorem setup_database_data_dir :
    pyDirname (pyReplace DATABASE_URL "sqlite:///" "") = "data" := by
  decide

/-- C10: `setup_database` always binds the engine to the fixed URL
`sqlite:///data/hangouts.db` (it takes no argument or environment input),
creates the `data` directory only when it does not already exist, creates
every missing ORM table before returning, and is a no-op on an
already-complete state: when the directory and all ORM tables exist, no
directory is created and the on-disk state is returned unchanged. -/
theorem c10_setup_database_fixed_url_and_idempotence
    (ormTables : List String) (fs : FsState) :
    (setup_database ormTables fs).engineUrl = "sqlite:///data/hangouts.db"
    ∧ ("data" ∈ fs.dirs → (setup_database ormTables fs).createdDirs = [])
    ∧ ("data" ∉ fs.dirs → (setup_database ormTables fs).createdDirs = ["data"]
        ∧ "data" ∈ (setup_database ormTables fs).fs.dirs)
    ∧ (∀ t ∈ ormTables, t ∈ (setup_database ormTables fs).fs.tables)
    ∧ ("data" ∈ fs.dirs → (∀ t ∈ ormTables, t ∈ fs.tables) →
        (setup_database ormTables fs).fs = fs) := by
  have hdir := setup_database_data_dir
  refine ⟨rfl, ?_, ?_, ?_, ?_⟩
  · intro hm
    simp [setup_database, hdir, hm]
  · intro hm
    simp [setup_database, hdir, hm]
  · intro t ht
    simp only [setup_database, hdir]
    split <;>
      · rw [List.mem_append]
        by_cases hmem : t ∈ fs.tables
        · exact Or.inl hmem
        · exact Or.inr (List.mem_filter.mpr ⟨ht, by simp [hmem]⟩)
  · intro hm hall
    have hfil : ormTables.filter (fun t => !decide (t ∈ fs.tables)) = [] :=
      List.filter_eq_nil_iff.mpr (fun a ha => by simp [hall a ha])
    simp [setup_database, hdir, hm, hfil]

/-- Witness for C10 at a concrete input: directory and tables already in
place. -/
theorem c10_setup_database_witness :
    (setup_database ["alarms"] { dirs := ["data"], tables := ["alarms"] }).engineUrl
      = "sqlite:///data/hangouts.db"
    ∧ (setup_database ["alarms"] { dirs := ["data"], tables := ["alarms"] }).createdDirs
      = []
    ∧ (setup_database ["alarms"] { dirs := ["data"], tables := ["alarms"] }).fs
      = { dirs := ["data"], tables := ["alarms"] } :=
  ⟨(c10_setup_database_fixed_url_and_idempotence ["alarms"] _).1,
   (c10_setup_database_fixed_url_and_idempotence ["alarms"] _).2.1 (by decide),
   (c10_setup_database_fixed_url_and_idempotence ["alarms"] _).2.2.2.2 (by decide)
     (by decide)⟩

end DiscordBot
